import Mathlib

/-!
Verification of the client-side interaction layer of the Sophie travel
site (`assets/js/script.js`).  The file shallowly embeds the script's
state machines (mobile menu, contact form, navbar chrome, FAQ
accordion), its image-URL normalization helper, the two JSON card-grid
loaders, and the guarded per-component initialization, and proves or
refutes the specification's claims about them.
-/

/- ===================== String utilities ===================== -/

/-- List-level check that `p` is a prefix of `s`, character by character. -/
def startsWithL : List Char → List Char → Bool
  | [], _ => true
  | _ :: _, [] => false
  | p :: ps, c :: cs => p == c && startsWithL ps cs

/-- List-level substring containment: some suffix of the first list starts
with the second list. -/
def containsSub : List Char → List Char → Bool
  | [], pat => pat.isEmpty
  | c :: rest, pat => startsWithL pat (c :: rest) || containsSub rest pat

/-- Embedding of JavaScript `s.includes(pat)`: substring containment. -/
def strContains (s pat : String) : Bool := containsSub s.data pat.data

/-- Embedding of JavaScript `s.startsWith(pat)`. -/
def strStartsWith (s pat : String) : Bool := startsWithL pat.data s.data

/-- Characters of `s` strictly before the first occurrence of `ch`; this
is JavaScript `s.split(ch)[0]`. -/
def beforeChar (s : String) (ch : Char) : String :=
  String.mk (s.data.takeWhile (fun c => c != ch))

/-- Suffix of the list strictly after the first occurrence of the pattern
(empty when the pattern does not occur). -/
def afterSub : List Char → List Char → List Char
  | [], _ => []
  | c :: rest, pat =>
    if startsWithL pat (c :: rest) then (c :: rest).drop pat.length
    else afterSub rest pat

/- ===================== Unsplash URL helper ===================== -/

/-- Embedding of `unsplashUrl` (script.js 496–499):
`if (!url || !url.includes('images.unsplash.com')) return url;`
`return url.split('?')[0] + '?' + querystring;`
An absent (`undefined`) argument is modelled as `none`; an empty string is
the only falsy string.  `url.split('?')[0]` is the prefix of the string
before the first `?`, embedded as `takeWhile`. -/
def unsplashUrl (url : Option String) (querystring : String) : Option String :=
  match url with
  | none => none
  | some u =>
    if u.data.isEmpty || !(strContains u "images.unsplash.com") then some u
    else some (beforeChar u '?' ++ "?" ++ querystring)

/-- Modelled from the spec: the host a URL "points at" — the authority
component between the `//` scheme separator and the following `/`.  The
code itself has no such notion (it tests substring containment anywhere in
the URL); this definition exists only to state the claim's
"pointing at the recognized image-hosting domain / matching that host"
language so it can be compared with what the code does. -/
def urlHost (u : String) : String :=
  String.mk ((afterSub u.data "//".data).takeWhile (fun c => c != '/'))

/- ===================== Mobile menu (script.js 44–100) ===================== -/

/-- Observable DOM state of the mobile menu: the panel's `open` and
`hidden` classes, the toggle button's `active` class, its `aria-expanded`
attribute, and which glyph the icon shows. -/
structure MenuState where
  isOpen : Bool
  hiddenClass : Bool
  toggleActive : Bool
  ariaExpanded : Bool
  iconIsX : Bool
deriving DecidableEq, Repr

/-- Embedding of `openMobileMenu` (57–67): unhide the panel, add the
`open` class, activate the toggle, set `aria-expanded`, swap the icon. -/
def openMobileMenu (s : MenuState) : MenuState :=
  { s with hiddenClass := false, isOpen := true, toggleActive := true,
           ariaExpanded := true, iconIsX := true }

/-- Embedding of the synchronous part of `closeMobileMenu` (72–79): remove
the `open` class, deactivate the toggle, clear `aria-expanded`, restore the
icon.  The 300 ms timer it schedules is `fireCloseTimer`. -/
def closeMobileMenu (s : MenuState) : MenuState :=
  { s with isOpen := false, toggleActive := false, ariaExpanded := false,
           iconIsX := false }

/-- Embedding of the timer body scheduled by `closeMobileMenu` (81–85):
at fire time, add the `hidden` class only if the panel does not carry the
`open` class. -/
def fireCloseTimer (s : MenuState) : MenuState :=
  if !s.isOpen then { s with hiddenClass := true } else s

/-- Embedding of `toggleMobileMenu` (44–52). -/
def toggleMobileMenu (s : MenuState) : MenuState :=
  if s.isOpen then closeMobileMenu s else openMobileMenu s

/- ===================== Smooth scroll (script.js 110–134) ===================== -/

/-- Page data the smooth-scroll handler reads: existing element ids with
their document offsets, the navbar's rendered height, and whether the
mobile menu is open. -/
structure ScrollPage where
  anchors : List (String × Nat)
  navbarHeight : Nat
  menuOpen : Bool
deriving Repr

/-- Observable effect of one activation of an anchor link. -/
structure ScrollEffect where
  prevented : Bool
  scrollTarget : Option Int
  closedMenu : Bool
deriving DecidableEq, Repr

/-- Embedding of `document.getElementById` restricted to `offsetTop`. -/
def lookupId (l : List (String × Nat)) (i : String) : Option Nat :=
  (l.find? (fun p => p.1 == i)).map (fun p => p.2)

/-- Embedding of `handleSmoothScroll` (110–134).  For an `href` starting
with `#`, `e.preventDefault()` runs before the target lookup; if the
target exists the handler computes `offsetTop - navbarHeight`, scrolls,
and closes the menu if open; if it does not, nothing further happens. -/
def handleSmoothScroll (p : ScrollPage) (href : String) : ScrollEffect :=
  if strStartsWith href "#" then
    match lookupId p.anchors (String.mk (href.data.drop 1)) with
    | some top =>
      { prevented := true
        scrollTarget := some ((top : Int) - (p.navbarHeight : Int))
        closedMenu := p.menuOpen }
    | none => { prevented := true, scrollTarget := none, closedMenu := false }
  else { prevented := false, scrollTarget := none, closedMenu := false }

/- ===================== Navbar chrome (script.js 27–35, 178–200, 373–395) ===================== -/

/-- Page section carrying an id, as read by `updateActiveNavLink`. -/
structure PageSection where
  id : String
  offsetTop : Nat
  offsetHeight : Nat
deriving DecidableEq, Repr

/-- Navbar anchor link with its `text-secondary` (active) class. -/
structure NavLink where
  href : String
  active : Bool
deriving DecidableEq, Repr

/-- DOM state the scroll-chrome controller reads and writes. -/
structure ChromePage where
  scrollY : Nat
  navbarHeight : Nat
  navbarScrolled : Bool
  sections : List PageSection
  navLinks : List NavLink
deriving DecidableEq, Repr

/-- Embedding of `handleNavbarScroll` (27–35): the `scrolled` class is
added exactly when `window.scrollY > 100` and removed otherwise. -/
def handleNavbarScroll (p : ChromePage) : ChromePage :=
  if p.scrollY > 100 then { p with navbarScrolled := true }
  else { p with navbarScrolled := false }

/-- Reference point used by `updateActiveNavLink` (183):
`window.scrollY + navbar.offsetHeight + 100`. -/
def chromeScrollPos (p : ChromePage) : Nat := p.scrollY + p.navbarHeight + 100

/-- Containment test of `updateActiveNavLink` (189):
`scrollPosition >= sectionTop && scrollPosition < sectionTop + sectionHeight`. -/
def sectionContains (pos : Nat) (s : PageSection) : Bool :=
  decide (s.offsetTop ≤ pos) && decide (pos < s.offsetTop + s.offsetHeight)

/-- Accumulation of `currentSection` over the `sections.forEach` loop
(182–192): starts at `''`; each containing section overwrites it, so the
last containing section wins. -/
def currentSectionFold (pos : Nat) (sections : List PageSection) : String :=
  sections.foldl (fun acc s => if sectionContains pos s then s.id else acc) ""

/-- Embedding of `updateActiveNavLink` (178–200): every link first loses
`text-secondary`, then gains it exactly when its `href` equals
`'#' + currentSection`. -/
def updateActiveNavLink (p : ChromePage) : ChromePage :=
  let current := currentSectionFold (chromeScrollPos p) p.sections
  { p with navLinks :=
      p.navLinks.map (fun l => { l with active := decide (l.href = "#" ++ current) }) }

/-- Chrome-relevant part of `init` (373–395): at load only
`handleNavbarScroll()` runs ("Check initial scroll position"); none of the
other calls in `init` touches the navbar class or the nav links. -/
def initChromeLoad (p : ChromePage) : ChromePage := handleNavbarScroll p

/-- Embedding of the throttled scroll handler (321–324): each tick runs
`handleNavbarScroll()` then `updateActiveNavLink()`. -/
def scrollTickChrome (p : ChromePage) : ChromePage :=
  updateActiveNavLink (handleNavbarScroll p)

/- ===================== Contact form (script.js 209–252, 435–484) ===================== -/

/-- Observable DOM state of the contact form: the submit button's
`disabled` property, its `hidden` class, the visibility of its label span
and spinner span, the label text, the success message's `hidden` class,
the `disabled` flag of each input/textarea, and the alerts shown so far. -/
structure ContactForm where
  btnDisabled : Bool
  btnHiddenClass : Bool
  btnTextHidden : Bool
  btnSpinnerHidden : Bool
  btnLabel : String
  successHidden : Bool
  inputsDisabled : List Bool
  alerts : List String
deriving DecidableEq, Repr

/-- Alert text of the failure branch (481). -/
def fallbackAlertMsg : String :=
  "Ops! Qualcosa è andato storto. Scrivimi a sophie.just4tour@gmail.com"

/-- Loading state shown by the submit handler before the fetch (448–450):
disable the button, hide the label, show the spinner. -/
def showLoading (s : ContactForm) : ContactForm :=
  { s with btnDisabled := true, btnTextHidden := true, btnSpinnerHidden := false }

/-- Success branch of the submit handler (461–471): hide the button,
reveal the success message, disable every input and textarea. -/
def submitSuccess (s : ContactForm) : ContactForm :=
  { s with btnHiddenClass := true, successHidden := false,
           inputsDisabled := s.inputsDisabled.map (fun _ => true) }

/-- Catch branch of the submit handler (476–482), reached both on a
network error and on a non-ok response: hide the spinner, show the label,
re-enable the button, alert with the fallback address. -/
def submitFailure (s : ContactForm) : ContactForm :=
  { s with btnSpinnerHidden := true, btnTextHidden := false, btnDisabled := false,
           alerts := s.alerts ++ [fallbackAlertMsg] }

/-- Embedding of one full run of the async submit handler (444–483),
parameterised by whether the awaited POST resolved with `response.ok`
(`false` also covers a rejected fetch, which lands in the same catch). -/
def contactSubmitHandler (respOk : Bool) (s : ContactForm) : ContactForm :=
  if respOk then submitSuccess (showLoading s) else submitFailure (showLoading s)

/-- Events that can still mutate the contact-form state after wiring:
another full submit-handler run, or the 5-second reset timer scheduled by
the `initFormValidation` submit listener (226–229), which re-enables the
button and restores its text (the blur/input validation listeners touch
only border classes and are irrelevant here). -/
inductive FormEvent where
  | submit (respOk : Bool)
  | validationTimer
deriving DecidableEq, Repr

/-- One event step on the contact-form state. -/
def stepForm (s : ContactForm) (e : FormEvent) : ContactForm :=
  match e with
  | .submit respOk => contactSubmitHandler respOk s
  | .validationTimer => { s with btnDisabled := false }

/-- Frozen configuration reached on success: submit control hidden,
confirmation visible, every field disabled. -/
def formFrozen (s : ContactForm) : Prop :=
  s.btnHiddenClass = true ∧ s.successHidden = false ∧
    s.inputsDisabled.all (fun b => b) = true

/-- Whether a user can still trigger a submit event: by activating a
visible, enabled submit button, or by pressing Enter in some enabled
field. -/
def canAttemptSubmit (s : ContactForm) : Bool :=
  (!s.btnHiddenClass && !s.btnDisabled) || s.inputsDisabled.any (fun b => !b)

/-- Spec's form-submission phases (`failed` collapses into `idle`
immediately, so only three are observable between events). -/
inductive FormPhase where
  | idle
  | submitting
  | succeeded
deriving DecidableEq, Repr

/-- Modelled from the spec: the `FormSubmissionState` read off the
observable DOM state — `succeeded` when the confirmation is visible,
`submitting` while the spinner is visible, `idle` otherwise.  The code
keeps no explicit phase variable; this definition exists to state the
claims' state-machine language. -/
def specPhase (s : ContactForm) : FormPhase :=
  if s.successHidden = false then .succeeded
  else if s.btnSpinnerHidden = false then .submitting
  else .idle

/- ===================== Card grids (script.js 508–550, 681–716) ===================== -/

/-- Destination record parsed from `destinations.json`; every field is
optional (516–528). -/
structure Destination where
  image : Option String
  region : Option String
  name : Option String
  tagline : Option String
  description : Option String
  bestTime : Option String
  highlights : Option String
  experiences : Option String
deriving DecidableEq, Repr

/-- Embedding of the JavaScript interpolation guard `x || ''`: an absent
field renders as the empty string. -/
def orEmpty (o : Option String) : String := o.getD ""

/-- Interpolated content of one destination card (519–545): the eight
`data-*` attributes, the thumbnail image source and alt text, and the
visible region / name / tagline copies. -/
structure DestinationCard where
  dataImage : String
  dataRegion : String
  dataName : String
  dataTagline : String
  dataDescription : String
  dataBestTime : String
  dataHighlights : String
  dataExperiences : String
  imgSrc : String
  imgAlt : String
  visRegion : String
  visName : String
  visTagline : String
deriving DecidableEq, Repr

/-- Embedding of the per-item template of `loadDestinations` (516–545):
the detail image uses the `w=1200&q=80` directive, the grid thumbnail the
`w=600&q=70` directive, and every interpolation is guarded by `|| ''`. -/
def destinationCard (d : Destination) : DestinationCard :=
  let image := unsplashUrl d.image "auto=format&fit=crop&w=1200&q=80"
  let thumb := unsplashUrl d.image "auto=format&fit=crop&w=600&q=70"
  { dataImage := orEmpty image
    dataRegion := orEmpty d.region
    dataName := orEmpty d.name
    dataTagline := orEmpty d.tagline
    dataDescription := orEmpty d.description
    dataBestTime := orEmpty d.bestTime
    dataHighlights := orEmpty d.highlights
    dataExperiences := orEmpty d.experiences
    imgSrc := orEmpty thumb
    imgAlt := orEmpty d.name
    visRegion := orEmpty d.region
    visName := orEmpty d.name
    visTagline := orEmpty d.tagline }

/-- Brochure record parsed from `brochures.json`; every field is optional
(689–711). -/
structure Brochure where
  image : Option String
  destination : Option String
  date : Option String
  description : Option String
  pdf : Option String
deriving DecidableEq, Repr

/-- Interpolated content of one brochure card (692–711): the link target,
the image source and alt text, the optional date block (`none` when the
whole `<p>` collapses to the empty string), and the visible copies. -/
structure BrochureCard where
  href : String
  imgSrc : String
  imgAlt : String
  dateText : Option String
  visDestination : String
  visDescription : String
deriving DecidableEq, Repr

/-- Embedding of the per-item template of `loadBrochures` (689–711):
`b.pdf ? 'assets/brochures/' + b.pdf : '#'` (a falsy filename yields a
dead link), the `w=800&q=70` image directive, and `|| ''` guards. -/
def brochureCard (b : Brochure) : BrochureCard :=
  let image := unsplashUrl b.image "auto=format&fit=crop&w=800&q=70"
  { href := match b.pdf with
      | some p => if p.isEmpty then "#" else "assets/brochures/" ++ p
      | none => "#"
    imgSrc := orEmpty image
    imgAlt := orEmpty b.destination
    dateText := match b.date with
      | some dt => if dt.isEmpty then none else some dt
      | none => none
    visDestination := orEmpty b.destination
    visDescription := orEmpty b.description }

/-- Outcome of one grid-loader run: `content = some cards` means the
container's innerHTML was replaced wholesale by exactly those cards in
that order; `content = none` means the container was left untouched.
`loggedError` records the `console.error` call of the catch branch. -/
structure GridEffect (α : Type) where
  content : Option (List α)
  loggedError : Bool
deriving DecidableEq, Repr

/-- Embedding of `loadDestinations` (508–550): early return when the grid
container is absent; on a successful fetch+parse, map the template over
the array and assign the concatenation once; on any failure (rejected
fetch, JSON parse error, non-array data), log and leave the container
untouched. -/
def loadDestinations (gridPresent : Bool)
    (fetched : Except String (List Destination)) : GridEffect DestinationCard :=
  if gridPresent then
    match fetched with
    | .ok ds => { content := some (ds.map destinationCard), loggedError := false }
    | .error _ => { content := none, loggedError := true }
  else { content := none, loggedError := false }

/-- Embedding of `loadBrochures` (681–716), structured exactly like
`loadDestinations`. -/
def loadBrochures (gridPresent : Bool)
    (fetched : Except String (List Brochure)) : GridEffect BrochureCard :=
  if gridPresent then
    match fetched with
    | .ok bs => { content := some (bs.map brochureCard), loggedError := false }
    | .error _ => { content := none, loggedError := true }
  else { content := none, loggedError := false }

/- ===================== FAQ accordion (script.js 405–426) ===================== -/

/-- Observable state of one FAQ item: its `open` class and the `hidden`
class of its content block. -/
structure FaqItem where
  isOpen : Bool
  contentHidden : Bool
deriving DecidableEq, Repr

/-- Effect of the "close all other FAQ items" loop (411–416) on an item
other than the activated one: an open item loses `open` and its content
gains `hidden`; a closed item is untouched. -/
def closeOther (it : FaqItem) : FaqItem :=
  if it.isOpen then { isOpen := false, contentHidden := true } else it

/-- Effect of the final toggle (419–425) on the activated item, driven by
the `isOpen` flag captured before the loop ran. -/
def toggleFaqItem (wasOpen : Bool) (it : FaqItem) : FaqItem :=
  if wasOpen then { it with isOpen := false, contentHidden := true }
  else { it with isOpen := true, contentHidden := false }

/-- Positional application of one `toggleFaq` call over the item list:
index `i` gets the captured toggle, every other index the
close-if-open treatment. -/
def toggleFaqAux (wasOpen : Bool) : Nat → List FaqItem → List FaqItem
  | _, [] => []
  | 0, it :: rest => toggleFaqItem wasOpen it :: rest.map closeOther
  | i + 1, it :: rest => closeOther it :: toggleFaqAux wasOpen i rest

/-- Embedding of `window.toggleFaq` (405–426) acting on the page's FAQ
items, the activated item given by its index.  The handler is only ever
invoked from a button inside an existing item, so the out-of-range branch
is unreachable in the page. -/
def toggleFaq (items : List FaqItem) (i : Nat) : List FaqItem :=
  match items[i]? with
  | none => items
  | some cur => toggleFaqAux cur.isOpen i items

/- ===================== Guarded initialization (script.js 13–17, 210–212, 262–267, 435–442, 559–566) ===================== -/

/-- Static shape of the page the script boots against: which element ids
exist, whether a `form` tag exists, whether the hero image exists, and
whether the modal contains its backdrop and content blocks. -/
structure PageDoc where
  ids : List String
  hasFormTag : Bool
  heroImg : Bool
  modalHasBackdrop : Bool
  modalHasContent : Bool
deriving DecidableEq, Repr

/-- Embedding of `document.getElementById(i) !== null`. -/
def hasId (doc : PageDoc) (i : String) : Bool := doc.ids.contains i

/-- Embedding of the top-level element acquisition (13–17): `navbar`,
`menuToggle` and `mobileMenu` are nullable lookups, but line 16
dereferences `mobileMenu.querySelectorAll('a')` unconditionally, so a page
without the `mobile-menu` element throws a TypeError out of the IIFE body
with nothing to catch it. -/
def scriptTopLevel (doc : PageDoc) : Except String Unit :=
  if hasId doc "mobile-menu" then Except.ok ()
  else Except.error "TypeError: cannot read querySelectorAll of null"

/-- Embedding of the initialization of `initContactForm` (435–442): early
return (`ok false`) when `contact-form` is absent; with the form present,
line 440 dereferences `submitBtn.querySelector('.btn-text')`, which throws
when `submit-btn` is absent; otherwise listeners are wired (`ok true`). -/
def initContactFormRun (doc : PageDoc) : Except String Bool :=
  if !(hasId doc "contact-form") then Except.ok false
  else if !(hasId doc "submit-btn") then
    Except.error "TypeError: cannot read querySelector of null"
  else Except.ok true

/-- Embedding of the initialization of `initFormValidation` (209–252):
early return when no `form` tag exists; the wiring itself only attaches
listeners and cannot throw. -/
def initFormValidationRun (doc : PageDoc) : Except String Bool :=
  if doc.hasFormTag then Except.ok true else Except.ok false

/-- Embedding of the initialization of `initParallax` (261–289): early
return when the hero image is absent or the viewport is narrow; otherwise
a scroll listener is attached. -/
def initParallaxRun (doc : PageDoc) (innerWidth : Nat) : Except String Bool :=
  if !doc.heroImg then Except.ok false
  else if innerWidth < 768 then Except.ok false
  else Except.ok true

/-- Embedding of the initialization of `initDestinationModal` (559–672):
early return (`ok false`) when the modal or every destination card is
absent; past the guard, lines 653, 654, 664 and 669 dereference
`modalClose`, `modalBackdrop`, `modalCtaBtn` and the `.modal-content`
element unconditionally. -/
def initDestinationModalRun (doc : PageDoc) (destinationCardsCount : Nat) :
    Except String Bool :=
  if !(hasId doc "destination-modal") || destinationCardsCount == 0 then
    Except.ok false
  else if !(hasId doc "modal-close") then
    Except.error "TypeError: cannot addEventListener on null close control"
  else if !doc.modalHasBackdrop then
    Except.error "TypeError: cannot addEventListener on null backdrop"
  else if !(hasId doc "modal-cta-btn") then
    Except.error "TypeError: cannot addEventListener on null cta"
  else if !doc.modalHasContent then
    Except.error "TypeError: cannot addEventListener on null content"
  else Except.ok true

/-- Page used as the concrete counterexample for the initialization
claim: every element the script touches is present except the
`mobile-menu` panel. -/
def docNoMobileMenu : PageDoc :=
  { ids := ["navbar", "menu-toggle", "menu-icon", "contact-form", "submit-btn",
            "form-success", "destination-modal", "modal-close", "modal-cta-btn",
            "destinations-grid", "brochures-grid", "hero"]
    hasFormTag := true
    heroImg := true
    modalHasBackdrop := true
    modalHasContent := true }

/- ===================== Concrete instances ===================== -/

/-- Page with no elements at all: every guarded component must
short-circuit on it. -/
def docBare : PageDoc :=
  { ids := [], hasFormTag := false, heroImg := false,
    modalHasBackdrop := false, modalHasContent := false }

/-- Contact form in its initial idle configuration (three empty, enabled
fields). -/
def idleForm : ContactForm :=
  { btnDisabled := false, btnHiddenClass := false, btnTextHidden := false,
    btnSpinnerHidden := true, btnLabel := "Invia richiesta",
    successHidden := true, inputsDisabled := [false, false, false],
    alerts := [] }

/-- Page with a single `contact` anchor, used to exercise the
smooth-scroll handler on an unresolvable fragment. -/
def anchorsPage : ScrollPage :=
  { anchors := [("contact", 500)], navbarHeight := 80, menuOpen := false }

/-- Freshly reloaded page: scroll offset 0, one section `about` spanning
0–1000, its link not yet marked active. -/
def chromePageAtLoad : ChromePage :=
  { scrollY := 0, navbarHeight := 50, navbarScrolled := false,
    sections := [{ id := "about", offsetTop := 0, offsetHeight := 1000 }],
    navLinks := [{ href := "#about", active := false }] }

/-- URL whose host is `cdn.example.com` but whose query string mentions
the Unsplash host as a plain parameter value. -/
def foreignHostUrl : String :=
  "https://cdn.example.com/x.jpg?ref=images.unsplash.com"

/-- Destination record with every optional field supplied. -/
def dFull : Destination :=
  { image := some "https://images.unsplash.com/photo-1?ixid=abc"
    region := some "Asia", name := some "Giappone",
    tagline := some "tra templi e neon", description := some "desc"
    bestTime := some "Primavera", highlights := some "Kyoto"
    experiences := some "onsen" }

/-- Destination record with only a name — every other field absent. -/
def dSparse : Destination :=
  { image := none, region := none, name := some "Islanda", tagline := none,
    description := none, bestTime := none, highlights := none,
    experiences := none }

/-- Brochure record with every optional field absent. -/
def bSparse : Brochure :=
  { image := none, destination := none, date := none, description := none,
    pdf := none }

/- ===================== Theorems ===================== -/

/-- C5: after `closeMobileMenu` runs, the 300 ms timer re-hides the panel
only if the menu has not been re-opened in the interim: on a plain close
the fired timer adds the `hidden` class, while after a close followed
immediately by an open the fired timer is a complete no-op and the panel
stays visible (un-hidden and open). -/
theorem closeMenu_timer_guard (s : MenuState) :
    (fireCloseTimer (closeMobileMenu s)).hiddenClass = true ∧
    fireCloseTimer (openMobileMenu (closeMobileMenu s)) =
      openMobileMenu (closeMobileMenu s) ∧
    (openMobileMenu (closeMobileMenu s)).hiddenClass = false := by
  exact ⟨rfl, rfl, rfl⟩

/-- C8: when the JSON fetch or parse of either grid fails for any reason,
the error is logged and the grid container's content is left untouched —
no partial render reaches the container. -/
theorem grid_failure_leaves_container (e : String) :
    loadDestinations true (Except.error e) =
      { content := none, loggedError := true } ∧
    loadBrochures true (Except.error e) =
      { content := none, loggedError := true } := by
  exact ⟨rfl, rfl⟩

/-- C3 (counterexample): activating the fragment link `#missing` on a page
with no element of that id still calls `preventDefault`, because
`handleSmoothScroll` suppresses default navigation before looking the
target up; this refutes the claim that default browser behavior is not
suppressed for unresolvable targets. -/
theorem smoothScroll_missing_target_prevents_default :
    lookupId anchorsPage.anchors "missing" = none ∧
    (handleSmoothScroll anchorsPage "#missing").prevented = true := by
  exact ⟨by decide, by decide⟩

/-- C3 (amended): for every in-page anchor link whose fragment target does
not resolve to an existing element, activation is a silent no-op apart
from suppressing default navigation: `preventDefault` has already run when
the lookup fails, no scroll is initiated, the menu is not touched, and no
error occurs. -/
theorem smoothScroll_missing_target_noop (p : ScrollPage) (href : String)
    (h1 : strStartsWith href "#" = true)
    (h2 : lookupId p.anchors (String.mk (href.data.drop 1)) = none) :
    handleSmoothScroll p href =
      { prevented := true, scrollTarget := none, closedMenu := false } := by
  unfold handleSmoothScroll
  rw [h1, h2]
  rfl

/-- Witness: the amended smooth-scroll claim evaluated on the concrete
page and the concrete dangling fragment `#missing`. -/
theorem smoothScroll_missing_target_noop_witness :
    handleSmoothScroll anchorsPage "#missing" =
      { prevented := true, scrollTarget := none, closedMenu := false } :=
  smoothScroll_missing_target_noop anchorsPage "#missing" (by decide) (by decide)

/-- C1 (counterexample): on a page carrying every element the script
touches except the `mobile-menu` panel, the top-level element acquisition
(line 16, `mobileMenu.querySelectorAll('a')`) throws an uncaught
TypeError; this refutes the claim that the absence of any optional
element — the mobile menu among the claim's examples — short-circuits
initialization without throwing. -/
theorem mobileMenu_absent_throws :
    hasId docNoMobileMenu "mobile-menu" = false ∧
    scriptTopLevel docNoMobileMenu =
      Except.error "TypeError: cannot read querySelectorAll of null" := by
  exact ⟨by decide, by rfl⟩

/-- C1 (amended): every component that guards its root element — the
contact form, the form-validation enhancement, the parallax hero, the
destination modal, and the two grid loaders — short-circuits with an
early return and does not throw when that element is absent; the mobile
menu element, however, is required rather than optional: top-level
initialization dereferences it unconditionally and throws when it is
absent. -/
theorem guarded_inits_short_circuit (doc : PageDoc) (w n : Nat)
    (fd : Except String (List Destination)) (fb : Except String (List Brochure)) :
    (hasId doc "contact-form" = false → initContactFormRun doc = Except.ok false) ∧
    (doc.hasFormTag = false → initFormValidationRun doc = Except.ok false) ∧
    (doc.heroImg = false → initParallaxRun doc w = Except.ok false) ∧
    (hasId doc "destination-modal" = false →
      initDestinationModalRun doc n = Except.ok false) ∧
    loadDestinations false fd = { content := none, loggedError := false } ∧
    loadBrochures false fb = { content := none, loggedError := false } ∧
    (hasId doc "mobile-menu" = false →
      ∃ msg, scriptTopLevel doc = Except.error msg) := by
  refine ⟨?_, ?_, ?_, ?_, rfl, rfl, ?_⟩
  · intro h; simp [initContactFormRun, h]
  · intro h; simp [initFormValidationRun, h]
  · intro h; simp [initParallaxRun, h]
  · intro h; simp [initDestinationModalRun, h]
  · intro h
    exact ⟨"TypeError: cannot read querySelectorAll of null", by simp [scriptTopLevel, h]⟩

/-- Witness: the amended initialization claim evaluated on the empty page
`docBare`, on which every guard fires. -/
theorem guarded_inits_short_circuit_witness :
    initContactFormRun docBare = Except.ok false ∧
    initFormValidationRun docBare = Except.ok false ∧
    initParallaxRun docBare 1024 = Except.ok false ∧
    initDestinationModalRun docBare 3 = Except.ok false ∧
    loadDestinations false (Except.ok []) = { content := none, loggedError := false } ∧
    loadBrochures false (Except.ok []) = { content := none, loggedError := false } ∧
    (∃ msg, scriptTopLevel docBare = Except.error msg) := by
  have h := guarded_inits_short_circuit docBare 1024 3 (Except.ok []) (Except.ok [])
  exact ⟨h.1 (by decide), h.2.1 (by decide), h.2.2.1 (by decide),
         h.2.2.2.1 (by decide), h.2.2.2.2.1, h.2.2.2.2.2.1,
         h.2.2.2.2.2.2 (by decide)⟩

/-- C6 (counterexample): `foreignHostUrl` points at host `cdn.example.com`
— not the recognized image-hosting domain — yet `unsplashUrl` rewrites it,
because the code tests substring containment of `images.unsplash.com`
anywhere in the URL rather than the URL's host; this refutes the claim
that every URL not matching that host is returned unchanged. -/
theorem unsplashUrl_rewrites_foreign_host :
    urlHost foreignHostUrl = "cdn.example.com" ∧
    urlHost foreignHostUrl ≠ "images.unsplash.com" ∧
    unsplashUrl (some foreignHostUrl) "auto=format&fit=crop&w=600&q=70" ≠
      some foreignHostUrl ∧
    unsplashUrl (some foreignHostUrl) "auto=format&fit=crop&w=600&q=70" =
      some "https://cdn.example.com/x.jpg?auto=format&fit=crop&w=600&q=70" := by
  exact ⟨by decide, by decide, by decide, by decide⟩

/-- C6 (amended): normalization keys on substring containment, not on the
host: a URL containing `images.unsplash.com` anywhere is rewritten to its
part before the first `?` followed by `?` and the requested directive,
while an absent, empty, or non-containing URL is returned unchanged. -/
theorem unsplashUrl_substring_normalization (u qs : String) :
    unsplashUrl none qs = none ∧
    (u = "" → unsplashUrl (some u) qs = some u) ∧
    (strContains u "images.unsplash.com" = false → unsplashUrl (some u) qs = some u) ∧
    (u ≠ "" → strContains u "images.unsplash.com" = true →
      unsplashUrl (some u) qs = some (beforeChar u '?' ++ "?" ++ qs)) := by
  refine ⟨rfl, ?_, ?_, ?_⟩
  · intro h; subst h; rfl
  · intro h; simp [unsplashUrl, h]
  · intro h1 h2
    have hne : u.data.isEmpty = false := by
      cases u with
      | mk l =>
        cases l with
        | nil => exact absurd rfl h1
        | cons c cs => rfl
    simp [unsplashUrl, hne, h2]

/-- Witness: the amended normalization claim evaluated on a genuine
Unsplash URL (query replaced) and on the spec's own example
`https://cdn.example.com/x.jpg?foo=1` (returned as-is). -/
theorem unsplashUrl_substring_normalization_witness :
    unsplashUrl (some "https://images.unsplash.com/photo-1?old=1") "w=600" =
      some (beforeChar "https://images.unsplash.com/photo-1?old=1" '?' ++ "?" ++ "w=600") ∧
    unsplashUrl (some "https://cdn.example.com/x.jpg?foo=1") "w=600" =
      some "https://cdn.example.com/x.jpg?foo=1" := by
  exact ⟨(unsplashUrl_substring_normalization
            "https://images.unsplash.com/photo-1?old=1" "w=600").2.2.2
            (by decide) (by decide),
         (unsplashUrl_substring_normalization
            "https://cdn.example.com/x.jpg?foo=1" "w=600").2.2.1 (by decide)⟩

/-- Helper: the frozen configuration survives any single further event on
the form — another submit-handler run with either outcome, or the
validation reset timer. -/
theorem formFrozen_step (s : ContactForm) (e : FormEvent) (h : formFrozen s) :
    formFrozen (stepForm s e) := by
  obtain ⟨h1, h2, h3⟩ := h
  cases e with
  | submit respOk =>
    cases respOk with
    | true =>
      refine ⟨rfl, rfl, ?_⟩
      simp [stepForm, contactSubmitHandler, submitSuccess, showLoading, List.all_map]
    | false => exact ⟨h1, h2, h3⟩
  | validationTimer => exact ⟨h1, h2, h3⟩

/-- Helper: the frozen configuration survives any sequence of further
events. -/
theorem formFrozen_foldl (s : ContactForm) (evs : List FormEvent)
    (h : formFrozen s) : formFrozen (evs.foldl stepForm s) := by
  induction evs generalizing s with
  | nil => exact h
  | cons e rest ih => exact ih _ (formFrozen_step s e h)

/-- Helper: a list of flags that are all set has no unset flag. -/
theorem any_not_of_all (l : List Bool) (h : l.all (fun b => b) = true) :
    l.any (fun b => !b) = false := by
  induction l with
  | nil => rfl
  | cons b rest ih =>
    simp only [List.all_cons, Bool.and_eq_true] at h
    simp [List.any_cons, h.1, ih h.2]

/-- Helper: in the frozen configuration no user action can trigger a
submit event — the submit control is hidden and every field disabled. -/
theorem canAttemptSubmit_of_frozen (s : ContactForm) (h : formFrozen s) :
    canAttemptSubmit s = false := by
  obtain ⟨h1, _, h3⟩ := h
  simp only [canAttemptSubmit, h1, Bool.not_true, Bool.false_and, Bool.false_or]
  exact any_not_of_all _ h3

/-- C2: once the asynchronous POST resolves with a success response, the
submit control is hidden, the confirmation message is revealed, and every
input and textarea is disabled; this frozen configuration persists under
every further event that can touch the form (more submit-handler runs
with either outcome, the validation reset timer), and at no point after
success is any submission attempt possible — no visible enabled submit
control and no enabled field remains. -/
theorem contactForm_success_terminal (s : ContactForm) (evs : List FormEvent) :
    formFrozen (contactSubmitHandler true s) ∧
    canAttemptSubmit (contactSubmitHandler true s) = false ∧
    formFrozen (evs.foldl stepForm (contactSubmitHandler true s)) ∧
    canAttemptSubmit (evs.foldl stepForm (contactSubmitHandler true s)) = false := by
  have h0 : formFrozen (contactSubmitHandler true s) := by
    refine ⟨rfl, rfl, ?_⟩
    simp [contactSubmitHandler, submitSuccess, showLoading, List.all_map]
  exact ⟨h0, canAttemptSubmit_of_frozen _ h0, formFrozen_foldl _ _ h0,
         canAttemptSubmit_of_frozen _ (formFrozen_foldl _ _ h0)⟩

/-- C4: when the POST fails (network error or non-ok response land in the
same catch), the handler restores the submit control to enabled with its
original label (spinner hidden, label span shown, text untouched), leaves
every field exactly as editable as before, appends the alert directing the
user to the fallback address, and the observable submission state is back
to `idle`. -/
theorem contactForm_failure_restores_idle (s : ContactForm)
    (hsucc : s.successHidden = true) :
    (contactSubmitHandler false s).btnDisabled = false ∧
    (contactSubmitHandler false s).btnTextHidden = false ∧
    (contactSubmitHandler false s).btnSpinnerHidden = true ∧
    (contactSubmitHandler false s).btnLabel = s.btnLabel ∧
    (contactSubmitHandler false s).btnHiddenClass = s.btnHiddenClass ∧
    (contactSubmitHandler false s).inputsDisabled = s.inputsDisabled ∧
    (contactSubmitHandler false s).alerts = s.alerts ++ [fallbackAlertMsg] ∧
    strContains fallbackAlertMsg "sophie.just4tour@gmail.com" = true ∧
    specPhase (contactSubmitHandler false s) = FormPhase.idle := by
  refine ⟨rfl, rfl, rfl, rfl, rfl, rfl, rfl, by decide, ?_⟩
  simp [contactSubmitHandler, submitFailure, showLoading, specPhase, hsucc]

/-- Witness: the failure-path claim evaluated on the concrete idle contact
form. -/
theorem contactForm_failure_restores_idle_witness :
    (contactSubmitHandler false idleForm).btnDisabled = false ∧
    (contactSubmitHandler false idleForm).btnTextHidden = false ∧
    (contactSubmitHandler false idleForm).btnSpinnerHidden = true ∧
    (contactSubmitHandler false idleForm).btnLabel = idleForm.btnLabel ∧
    (contactSubmitHandler false idleForm).btnHiddenClass = idleForm.btnHiddenClass ∧
    (contactSubmitHandler false idleForm).inputsDisabled = idleForm.inputsDisabled ∧
    (contactSubmitHandler false idleForm).alerts = idleForm.alerts ++ [fallbackAlertMsg] ∧
    strContains fallbackAlertMsg "sophie.just4tour@gmail.com" = true ∧
    specPhase (contactSubmitHandler false idleForm) = FormPhase.idle :=
  contactForm_failure_restores_idle idleForm (by decide)

/-- C7: a successfully fetched JSON array renders exactly one card per
item, replacing the container's content with the cards in array order (no
sorting, filtering, or pagination — index `i` of the output is the
template applied to index `i` of the input), and every absent optional
field is interpolated as the empty string into both the visible markup
and the card's data-attribute payload (for brochures, an absent date
omits its block and an absent pdf yields the dead link `#`) — never the
literal `undefined` or `null`. -/
theorem grid_renders_in_order_empty_fields (ds : List Destination)
    (bs : List Brochure) (d : Destination) (b : Brochure) :
    (loadDestinations true (Except.ok ds)).content = some (ds.map destinationCard) ∧
    (ds.map destinationCard).length = ds.length ∧
    (∀ i : Nat, (ds.map destinationCard)[i]? = (ds[i]?).map destinationCard) ∧
    (loadBrochures true (Except.ok bs)).content = some (bs.map brochureCard) ∧
    (bs.map brochureCard).length = bs.length ∧
    (∀ i : Nat, (bs.map brochureCard)[i]? = (bs[i]?).map brochureCard) ∧
    (d.region = none → (destinationCard d).dataRegion = "" ∧
      (destinationCard d).visRegion = "") ∧
    (d.name = none → (destinationCard d).dataName = "" ∧
      (destinationCard d).visName = "" ∧ (destinationCard d).imgAlt = "") ∧
    (d.tagline = none → (destinationCard d).dataTagline = "" ∧
      (destinationCard d).visTagline = "") ∧
    (d.description = none → (destinationCard d).dataDescription = "") ∧
    (d.bestTime = none → (destinationCard d).dataBestTime = "") ∧
    (d.highlights = none → (destinationCard d).dataHighlights = "") ∧
    (d.experiences = none → (destinationCard d).dataExperiences = "") ∧
    (d.image = none → (destinationCard d).dataImage = "" ∧
      (destinationCard d).imgSrc = "") ∧
    (b.destination = none → (brochureCard b).visDestination = "" ∧
      (brochureCard b).imgAlt = "") ∧
    (b.description = none → (brochureCard b).visDescription = "") ∧
    (b.date = none → (brochureCard b).dateText = none) ∧
    (b.image = none → (brochureCard b).imgSrc = "") ∧
    (b.pdf = none → (brochureCard b).href = "#") := by
  refine ⟨rfl, List.length_map _ _, ?_, rfl, List.length_map _ _, ?_, ?_, ?_, ?_,
          ?_, ?_, ?_, ?_, ?_, ?_, ?_, ?_, ?_, ?_⟩
  · intro i; exact List.getElem?_map _ _ _
  · intro i; exact List.getElem?_map _ _ _
  · intro h; exact ⟨by simp [destinationCard, orEmpty, h], by simp [destinationCard, orEmpty, h]⟩
  · intro h; exact ⟨by simp [destinationCard, orEmpty, h],
      by simp [destinationCard, orEmpty, h], by simp [destinationCard, orEmpty, h]⟩
  · intro h; exact ⟨by simp [destinationCard, orEmpty, h], by simp [destinationCard, orEmpty, h]⟩
  · intro h; simp [destinationCard, orEmpty, h]
  · intro h; simp [destinationCard, orEmpty, h]
  · intro h; simp [destinationCard, orEmpty, h]
  · intro h; simp [destinationCard, orEmpty, h]
  · intro h; exact ⟨by simp [destinationCard, orEmpty, unsplashUrl, h],
      by simp [destinationCard, orEmpty, unsplashUrl, h]⟩
  · intro h; exact ⟨by simp [brochureCard, orEmpty, h], by simp [brochureCard, orEmpty, h]⟩
  · intro h; simp [brochureCard, orEmpty, h]
  · intro h; simp [brochureCard, h]
  · intro h; simp [brochureCard, orEmpty, unsplashUrl, h]
  · intro h; simp [brochureCard, h]

/-- Witness: the rendering claim evaluated on the spec's own test shape —
a two-item destination array whose second item misses every optional
field except the name — and on a fully absent brochure record. -/
theorem grid_renders_in_order_empty_fields_witness :
    (loadDestinations true (Except.ok [dFull, dSparse])).content =
      some ([dFull, dSparse].map destinationCard) ∧
    ([dFull, dSparse].map destinationCard).length = 2 ∧
    (dSparse.region = none ∧ (destinationCard dSparse).dataRegion = "" ∧
      (destinationCard dSparse).visRegion = "") ∧
    (dSparse.tagline = none ∧ (destinationCard dSparse).dataTagline = "" ∧
      (destinationCard dSparse).visTagline = "") ∧
    (dSparse.image = none ∧ (destinationCard dSparse).dataImage = "" ∧
      (destinationCard dSparse).imgSrc = "") ∧
    (bSparse.date = none ∧ (brochureCard bSparse).dateText = none) ∧
    (bSparse.pdf = none ∧ (brochureCard bSparse).href = "#") := by
  obtain ⟨a1, a2, -, -, -, -, hR, -, hT, -, -, -, -, hI, -, -, hBd, -, hBp⟩ :=
    grid_renders_in_order_empty_fields [dFull, dSparse] [bSparse] dSparse bSparse
  refine ⟨a1, a2, ⟨rfl, (hR rfl).1, (hR rfl).2⟩, ⟨rfl, (hT rfl).1, (hT rfl).2⟩,
          ⟨rfl, (hI rfl).1, (hI rfl).2⟩, ⟨rfl, hBd rfl⟩, ⟨rfl, hBp rfl⟩⟩

/-- Helper: `handleNavbarScroll` writes only the `scrolled` marker. -/
theorem handleNavbarScroll_fields (p : ChromePage) :
    (handleNavbarScroll p).scrollY = p.scrollY ∧
    (handleNavbarScroll p).navbarHeight = p.navbarHeight ∧
    (handleNavbarScroll p).sections = p.sections ∧
    (handleNavbarScroll p).navLinks = p.navLinks ∧
    (handleNavbarScroll p).navbarScrolled = decide (p.scrollY > 100) := by
  unfold handleNavbarScroll
  by_cases h : p.scrollY > 100 <;> simp [h]

/-- Helper: the `currentSection` accumulation equals the id of the last
containing section, with the accumulator as default. -/
theorem currentSectionFold_eq_getLastD (pos : Nat) (l : List PageSection) :
    ∀ acc : String,
      l.foldl (fun a s => if sectionContains pos s then s.id else a) acc =
        ((l.filter (fun s => sectionContains pos s)).map PageSection.id).getLastD acc := by
  induction l with
  | nil => intro acc; rfl
  | cons s rest ih =>
    intro acc
    cases hc : sectionContains pos s with
    | true =>
      rw [List.foldl_cons, List.filter_cons_of_pos (by simp [hc]), List.map_cons,
          List.getLastD_cons, if_pos hc, ih]
    | false =>
      rw [List.foldl_cons, List.filter_cons_of_neg (by simp [hc]), if_neg (by simp [hc]), ih]

/-- Helper: the default-carrying last element of a nonempty constant list
is that constant. -/
theorem getLastD_all_eq (x : String) :
    ∀ l : List String, l ≠ [] → (∀ y ∈ l, y = x) → ∀ acc, l.getLastD acc = x := by
  intro l
  induction l with
  | nil => intro h; exact absurd rfl h
  | cons a rest ih =>
    intro _ hall acc
    cases rest with
    | nil => simpa using hall a (by simp)
    | cons b r =>
      rw [List.getLastD_cons]
      exact ih (by simp) (fun y hy => hall y (List.mem_cons_of_mem a hy)) a

/-- Helper: when a unique section (up to id) contains the reference
point, the accumulated `currentSection` is its id. -/
theorem currentSectionFold_of_unique (pos : Nat) (l : List PageSection)
    (s : PageSection) (hmem : s ∈ l) (hc : sectionContains pos s = true)
    (huniq : ∀ t ∈ l, sectionContains pos t = true → t.id = s.id) :
    currentSectionFold pos l = s.id := by
  unfold currentSectionFold
  rw [currentSectionFold_eq_getLastD]
  apply getLastD_all_eq
  · have hmf : s ∈ l.filter (fun t => sectionContains pos t) :=
      List.mem_filter.mpr ⟨hmem, hc⟩
    intro hnil
    rw [List.map_eq_nil_iff] at hnil
    rw [hnil] at hmf
    exact absurd hmf (List.not_mem_nil s)
  · intro y hy
    obtain ⟨t, ht, rfl⟩ := List.mem_map.mp hy
    have hmt := List.mem_filter.mp ht
    exact huniq t hmt.1 hmt.2

/-- C9 (counterexample): on a freshly loaded page whose scroll reference
point lies inside the `about` section, the load-time run of `init` leaves
the section's nav link inactive — only `handleNavbarScroll` runs at load,
while `updateActiveNavLink` first runs on a scroll tick (which would mark
the link active); this refutes the claim that the combined scroll-chrome
update runs once at page load. -/
theorem activeNavLink_not_updated_at_load :
    sectionContains (chromeScrollPos chromePageAtLoad)
      { id := "about", offsetTop := 0, offsetHeight := 1000 } = true ∧
    (initChromeLoad chromePageAtLoad).navLinks =
      [{ href := "#about", active := false }] ∧
    (scrollTickChrome chromePageAtLoad).navLinks =
      [{ href := "#about", active := true }] := by
  exact ⟨by decide, by decide, by decide⟩

/-- C9 (amended): the navbar `scrolled` marker — set exactly when the
vertical scroll offset exceeds 100 px — is updated once at page load and
on every throttled scroll tick, but the active-link update runs only on
scroll ticks: the load-time run leaves all nav links untouched, while a
tick marks active exactly the links matching the section containing
`scrollY + navbarHeight + 100` and clears all others. -/
theorem chrome_load_and_tick (p : ChromePage) (s : PageSection)
    (hmem : s ∈ p.sections)
    (hc : sectionContains (chromeScrollPos p) s = true)
    (huniq : ∀ t ∈ p.sections, sectionContains (chromeScrollPos p) t = true →
      t.id = s.id) :
    (initChromeLoad p).navbarScrolled = decide (p.scrollY > 100) ∧
    (initChromeLoad p).navLinks = p.navLinks ∧
    (scrollTickChrome p).navbarScrolled = decide (p.scrollY > 100) ∧
    (scrollTickChrome p).navLinks =
      p.navLinks.map (fun l => { l with active := decide (l.href = "#" ++ s.id) }) := by
  obtain ⟨hy, hh, hs, hl, hm⟩ := handleNavbarScroll_fields p
  have hpos : chromeScrollPos (handleNavbarScroll p) = chromeScrollPos p := by
    unfold chromeScrollPos; rw [hy, hh]
  have hcur : currentSectionFold (chromeScrollPos p) p.sections = s.id :=
    currentSectionFold_of_unique _ _ _ hmem hc huniq
  refine ⟨hm, hl, ?_, ?_⟩
  · unfold scrollTickChrome updateActiveNavLink
    simpa using hm
  · unfold scrollTickChrome updateActiveNavLink
    simp only [hpos, hs, hl, hcur]

/-- Witness: the amended chrome claim evaluated on the concrete reloaded
page, its `about` section being the unique containing section. -/
theorem chrome_load_and_tick_witness :
    (initChromeLoad chromePageAtLoad).navbarScrolled =
      decide (chromePageAtLoad.scrollY > 100) ∧
    (initChromeLoad chromePageAtLoad).navLinks = chromePageAtLoad.navLinks ∧
    (scrollTickChrome chromePageAtLoad).navbarScrolled =
      decide (chromePageAtLoad.scrollY > 100) ∧
    (scrollTickChrome chromePageAtLoad).navLinks =
      chromePageAtLoad.navLinks.map (fun l =>
        { l with active := decide (l.href = "#" ++ "about") }) :=
  chrome_load_and_tick chromePageAtLoad
    { id := "about", offsetTop := 0, offsetHeight := 1000 }
    (by decide) (by decide) (by decide)

/-- Helper: one `toggleFaq` call preserves the number of items. -/
theorem toggleFaqAux_length (w : Bool) :
    ∀ (i : Nat) (l : List FaqItem), (toggleFaqAux w i l).length = l.length := by
  intro i l
  induction l generalizing i with
  | nil => cases i <;> rfl
  | cons it rest ih =>
    cases i with
    | zero => simp [toggleFaqAux]
    | succ i' => simp [toggleFaqAux, ih]

/-- Helper: `closeOther` always leaves an item closed. -/
theorem closeOther_isOpen (it : FaqItem) : (closeOther it).isOpen = false := by
  unfold closeOther
  by_cases h : it.isOpen = true
  · simp [h]
  · simp only [Bool.not_eq_true] at h
    simp [h]

/-- Helper: the item-wise view of one `toggleFaq` pass — position `i`
receives the captured toggle, every other position the
close-if-open treatment. -/
theorem toggleFaqAux_getElem (w : Bool) :
    ∀ (l : List FaqItem) (i j : Nat),
      (toggleFaqAux w i l)[j]? =
        (l[j]?).map (fun it => if j = i then toggleFaqItem w it else closeOther it) := by
  intro l
  induction l with
  | nil => intro i j; cases i <;> rfl
  | cons it rest ih =>
    intro i j
    cases i with
    | zero =>
      cases j with
      | zero => simp [toggleFaqAux]
      | succ j' => simp [toggleFaqAux, List.getElem?_map]
    | succ i' =>
      cases j with
      | zero => simp [toggleFaqAux]
      | succ j' => simp [toggleFaqAux, ih]

/-- C10: after any call of the FAQ toggle on a valid item index, at most
one item is open: every other previously open item is closed with its
content marked hidden, an already-open activated item is closed (content
hidden), a closed activated item is opened (content shown), and no two
distinct positions are both open afterwards. -/
theorem toggleFaq_at_most_one_open (items : List FaqItem) (i : Nat)
    (cur : FaqItem) (hcur : items[i]? = some cur) :
    (toggleFaq items i).length = items.length ∧
    (∀ j it, j ≠ i → items[j]? = some it → it.isOpen = true →
      (toggleFaq items i)[j]? = some { isOpen := false, contentHidden := true }) ∧
    (cur.isOpen = true →
      (toggleFaq items i)[i]? =
        some { cur with isOpen := false, contentHidden := true }) ∧
    (cur.isOpen = false →
      (toggleFaq items i)[i]? =
        some { cur with isOpen := true, contentHidden := false }) ∧
    (∀ (j k : Nat) (a c : FaqItem),
      (toggleFaq items i)[j]? = some a → (toggleFaq items i)[k]? = some c →
      a.isOpen = true → c.isOpen = true → j = k) := by
  have htf : toggleFaq items i = toggleFaqAux cur.isOpen i items := by
    unfold toggleFaq; rw [hcur]
  have key : ∀ j a, (toggleFaq items i)[j]? = some a → a.isOpen = true → j = i := by
    intro j a hj hopen
    by_cases hji : j = i
    · exact hji
    · exfalso
      rw [htf, toggleFaqAux_getElem] at hj
      cases hmem : items[j]? with
      | none => rw [hmem] at hj; simp at hj
      | some it =>
        rw [hmem] at hj
        simp only [Option.map_some', if_neg hji, Option.some_inj] at hj
        rw [← hj] at hopen
        rw [closeOther_isOpen] at hopen
        exact Bool.false_ne_true hopen
  refine ⟨?_, ?_, ?_, ?_, ?_⟩
  · rw [htf]; exact toggleFaqAux_length _ _ _
  · intro j it hne hj hopen
    rw [htf, toggleFaqAux_getElem, hj]
    simp only [Option.map_some', if_neg hne]
    simp [closeOther, hopen]
  · intro hopen
    rw [htf, toggleFaqAux_getElem, hcur]
    simp [toggleFaqItem, hopen]
  · intro hclosed
    rw [htf, toggleFaqAux_getElem, hcur]
    simp [toggleFaqItem, hclosed]
  · intro j k a c hj hk ha hc
    rw [key j a hj ha, key k c hk hc]

/-- Witness: the FAQ claim evaluated on a concrete three-item accordion
with item 0 open and item 2 activated while closed. -/
theorem toggleFaq_at_most_one_open_witness :
    toggleFaq [⟨true, false⟩, ⟨false, true⟩, ⟨false, true⟩] 2 =
      [⟨false, true⟩, ⟨false, true⟩, ⟨true, false⟩] ∧
    (toggleFaq [⟨true, false⟩, ⟨false, true⟩, ⟨false, true⟩] 2)[0]? =
      some { isOpen := false, contentHidden := true } ∧
    (toggleFaq [⟨true, false⟩, ⟨false, true⟩, ⟨false, true⟩] 2)[2]? =
      some { isOpen := true, contentHidden := false } := by
  obtain ⟨-, h2, -, h4, -⟩ :=
    toggleFaq_at_most_one_open [⟨true, false⟩, ⟨false, true⟩, ⟨false, true⟩] 2
      ⟨false, true⟩ (by decide)
  exact ⟨by decide, h2 0 ⟨true, false⟩ (by decide) (by decide) rfl, h4 rfl⟩
